import Mathlib

/-!
Verification of the Café Directory Service (`main.py`): a shallow embedding of
the Flask/SQLAlchemy REST API into Lean, with theorems checking the service's
natural-language specification against the embedded code.

Modelling conventions:
- The database table is a `List Cafe`; the primary-key invariant (distinct ids)
  is carried as a hypothesis where a theorem needs it.
- `request.args.get` / `request.form.get` yield `Option String` (absent = `none`).
- Each endpoint is a pure function from the table (and its request inputs) to
  the new table and an HTTP response.
- `db.get_or_404` aborts the request with the framework's default 404 response
  (an HTML page, not JSON) when the row is absent; this is modelled by the
  distinguished body `Body.frameworkNotFound`.  When the row is present it is
  returned, so the `else` branches after `get_or_404` in the source are
  unreachable and do not appear in the embedding.
- `random.choice` on an empty list raises `IndexError`; `get_random_cafe`
  returns `none` in that case (no JSON response is produced).
-/

namespace APICoffee

/-- A JSON value, the shape of `jsonify` response bodies. -/
inductive Json where
  | str (s : String)
  | num (n : Int)
  | bool (b : Bool)
  | null
  | arr (xs : List Json)
  | obj (fields : List (String × Json))

/-- The `Cafe` table row, fields exactly as declared in `main.py` lines 35-48.
`coffee_price` is the only nullable column. -/
structure Cafe where
  id : Nat
  name : String
  map_url : String
  img_url : String
  location : String
  seats : String
  has_toilet : Bool
  has_wifi : Bool
  has_sockets : Bool
  can_take_calls : Bool
  coffee_price : Option String
deriving DecidableEq, Repr

/-- Serialization of a nullable text column. -/
def optStrJson : Option String → Json
  | none => Json.null
  | some s => Json.str s

/-- `Cafe.to_dict`: every column serialized in declaration order. -/
def Cafe.to_dict (c : Cafe) : Json :=
  Json.obj
    [("id", Json.num c.id), ("name", Json.str c.name),
     ("map_url", Json.str c.map_url), ("img_url", Json.str c.img_url),
     ("location", Json.str c.location), ("seats", Json.str c.seats),
     ("has_toilet", Json.bool c.has_toilet), ("has_wifi", Json.bool c.has_wifi),
     ("has_sockets", Json.bool c.has_sockets),
     ("can_take_calls", Json.bool c.can_take_calls),
     ("coffee_price", optStrJson c.coffee_price)]

/-- An HTTP response body: a JSON document from `jsonify`, or the framework's
default 404 page produced when `get_or_404` aborts. -/
inductive Body where
  | json (j : Json)
  | frameworkNotFound

/-- An HTTP response: status code and body. -/
structure Response where
  status : Nat
  body : Body

def notFoundIdMsg : String :=
  "Sorry a cafe with that id was not found in the database."

def notFoundLocMsg : String :=
  "Sorry, we don\x27t have a cafe at that location."

def forbiddenMsg : String :=
  "Sorry, that\x27s not allowed. Make sure you have the correct api_key."

def addedMsg : String := "Successfully added the new cafe."

def updatedMsg : String := "Successfully updated the price."

def deletedMsg : String := "Successfully deleted the cafe from the database."

/-- The hard-coded secret compared against the `api-key` query parameter. -/
def secretApiKey : String := "TopSecretAPIKey"

/-- `jsonify(response={"success": msg})` with implicit status 200. -/
def successResponse (msg : String) : Response :=
  ⟨200, Body.json (Json.obj [("response", Json.obj [("success", Json.str msg)])])⟩

/-- `jsonify(error={category: msg}), status`. -/
def errorResponse (status : Nat) (category msg : String) : Response :=
  ⟨status, Body.json (Json.obj [("error", Json.obj [(category, Json.str msg)])])⟩

/-- The response `db.get_or_404` aborts with when no row has the given id. -/
def frameworkNotFoundResponse : Response := ⟨404, Body.frameworkNotFound⟩

/-- Primary-key lookup, as performed by `db.get_or_404(Cafe, cafe_id)`. -/
def db_get (table : List Cafe) (cafe_id : Nat) : Option Cafe :=
  table.find? (fun c => c.id == cafe_id)

/-- `GET /random`: fetch all rows and `random.choice` one of them; `choice` is
the random index drawn.  On an empty table `random.choice` raises `IndexError`,
so no response is produced (`none`). -/
def get_random_cafe (table : List Cafe) (choice : Nat) : Option Response :=
  match table with
  | [] => none
  | c :: cs =>
      some ⟨200, Body.json (Json.obj
        [("cafe", ((c :: cs).getD (choice % (c :: cs).length) c).to_dict)])⟩

/-- The `ORDER BY name` comparison (SQLite default BINARY collation:
code-point order on the text). -/
def nameLe (a b : Cafe) : Prop := a.name ≤ b.name

instance : DecidableRel nameLe :=
  fun a b => inferInstanceAs (Decidable (a.name ≤ b.name))

instance : IsTotal Cafe nameLe := ⟨fun a b => le_total a.name b.name⟩

instance : IsTrans Cafe nameLe := ⟨fun _ _ _ h1 h2 => le_trans h1 h2⟩

/-- `db.select(Cafe).order_by(Cafe.name)`: the table sorted by name. -/
def order_by_name (table : List Cafe) : List Cafe :=
  table.insertionSort nameLe

/-- `GET /all`: all rows ordered by name, as `{"cafes": [...]}`, status 200. -/
def get_all_cafes (table : List Cafe) : Response :=
  ⟨200, Body.json (Json.obj
    [("cafes", Json.arr ((order_by_name table).map Cafe.to_dict))])⟩

/-- The `WHERE Cafe.location == query_location` filter.  A missing `loc`
parameter makes `query_location` `None`; the generated SQL then compares
against NULL and matches no row (`location` is non-nullable). -/
def locMatch (query_location : Option String) (c : Cafe) : Bool :=
  match query_location with
  | none => false
  | some l => c.location == l

/-- `GET /search?loc=...`: rows at the queried location, else a JSON 404. -/
def get_cafe_at_location (table : List Cafe) (query_location : Option String) :
    Response :=
  let all_cafes := table.filter (locMatch query_location)
  if all_cafes.isEmpty then
    errorResponse 404 "Not Found" notFoundLocMsg
  else
    ⟨200, Body.json (Json.obj
      [("cafes", Json.arr (all_cafes.map Cafe.to_dict))])⟩

/-- The form body of `POST /add`: each field as `request.form.get` sees it. -/
structure AddForm where
  name : Option String
  map_url : Option String
  img_url : Option String
  loc : Option String
  sockets : Option String
  toilet : Option String
  wifi : Option String
  calls : Option String
  seats : Option String
  coffee_price : Option String

/-- Python `bool(request.form.get(k))`: `bool(None)` and `bool("")` are
`False`; any non-empty string (including `"false"` and `"0"`) is `True`. -/
def pyTruthy : Option String → Bool
  | none => false
  | some s => !s.isEmpty

/-- The row constructed by `post_new_cafe` once the required text fields are
known to be present. -/
def builtCafe (form : AddForm) (new_id : Nat) (nm mu iu lo st : String) : Cafe :=
  { id := new_id, name := nm, map_url := mu, img_url := iu, location := lo,
    seats := st,
    has_toilet := pyTruthy form.toilet, has_wifi := pyTruthy form.wifi,
    has_sockets := pyTruthy form.sockets,
    can_take_calls := pyTruthy form.calls,
    coffee_price := form.coffee_price }

/-- `POST /add`: build a row from the form and commit it.  The commit raises
`IntegrityError` when a required (NOT NULL) column is `None` or the `name`
violates the UNIQUE constraint; otherwise the row is appended (the store
assigns `new_id`) and the success JSON is returned. -/
def post_new_cafe (table : List Cafe) (form : AddForm) (new_id : Nat) :
    Except String (List Cafe × Response) :=
  match form.name, form.map_url, form.img_url, form.loc, form.seats with
  | some nm, some mu, some iu, some lo, some st =>
      if table.any (fun c => c.name == nm) then
        Except.error "IntegrityError: UNIQUE constraint failed: cafe.name"
      else
        Except.ok (table ++ [builtCafe form new_id nm mu iu lo st],
          successResponse addedMsg)
  | _, _, _, _, _ => Except.error "IntegrityError: NOT NULL constraint failed"

/-- `PATCH /update-price/<id>`: `get_or_404` the row (aborting with the
framework 404 page when absent — the JSON `else` branch in the source is
unreachable), set `coffee_price` to the raw `new_price` value, commit. -/
def patch_new_price (table : List Cafe) (cafe_id : Nat)
    (new_price : Option String) : List Cafe × Response :=
  match db_get table cafe_id with
  | none => (table, frameworkNotFoundResponse)
  | some _ =>
      (table.map (fun c =>
         if c.id == cafe_id then { c with coffee_price := new_price } else c),
       successResponse updatedMsg)

/-- `DELETE /report-closed/<id>?api-key=...`: the key is checked first; only
on an exact match is the row looked up (`get_or_404`, aborting with the
framework 404 page when absent — the JSON `else` branch is unreachable) and
deleted. -/
def delete_cafe (table : List Cafe) (cafe_id : Nat) (api_key : Option String) :
    List Cafe × Response :=
  if api_key == some secretApiKey then
    match db_get table cafe_id with
    | none => (table, frameworkNotFoundResponse)
    | some _ =>
        (table.filter (fun c => !(c.id == cafe_id)), successResponse deletedMsg)
  else
    (table, errorResponse 403 "Forbidden" forbiddenMsg)

/-- A concrete row used to instantiate theorems with hypotheses. -/
def testCafe : Cafe :=
  { id := 1, name := "Blue Bottle", map_url := "http://maps.example/bb",
    img_url := "http://img.example/bb.png", location := "Paris",
    seats := "20-30", has_toilet := true, has_wifi := false,
    has_sockets := true, can_take_calls := false,
    coffee_price := some "2.50" }

/-- A concrete `POST /add` form used to instantiate theorems. -/
def testForm : AddForm :=
  { name := some "Joe of Springfield", map_url := some "http://x",
    img_url := some "http://y", loc := some "Springfield",
    sockets := some "false", toilet := some "0", wifi := some "",
    calls := none, seats := some "10", coffee_price := none }

/-- C1: DELETE /report-closed with a wrong (or missing) api-key returns the
fixed 403 Forbidden JSON, leaves the table unchanged, and produces a response
that does not depend on the table's contents (so it reveals nothing about
whether the id exists). -/
theorem C1_delete_wrong_key_forbidden (table : List Cafe) (cafe_id : Nat)
    (api_key : Option String) (h : api_key ≠ some secretApiKey) :
    delete_cafe table cafe_id api_key =
      (table, errorResponse 403 "Forbidden" forbiddenMsg) ∧
    ∀ table2 : List Cafe,
      (delete_cafe table2 cafe_id api_key).2 =
        (delete_cafe table cafe_id api_key).2 := by
  have hb : (api_key == some secretApiKey) = false := by
    simpa using h
  refine ⟨?_, fun table2 => ?_⟩
  · simp [delete_cafe, hb]
  · simp [delete_cafe, hb]

/-- Witness for C1 at a concrete wrong key and empty table. -/
theorem C1_witness :
    delete_cafe [] 1 (some "WrongKey") =
      ([], errorResponse 403 "Forbidden" forbiddenMsg) :=
  (C1_delete_wrong_key_forbidden [] 1 (some "WrongKey") (by decide)).1

/-- C2: at the failing input (empty table, id 1), PATCH /update-price aborts
inside `get_or_404` with the framework's default 404 page, which is not the
JSON body the claim states; the source's `else` branch containing that JSON is
unreachable. -/
theorem C2_patch_absent_id_framework_404 :
    patch_new_price [] 1 (some "3.00") = ([], frameworkNotFoundResponse) ∧
    frameworkNotFoundResponse ≠ errorResponse 404 "Not Found" notFoundIdMsg := by
  refine ⟨rfl, ?_⟩
  intro h
  simp [frameworkNotFoundResponse, errorResponse] at h

/-- C3: GET /search returns the fixed 404 JSON exactly when no stored row's
location equals the queried string (missing `loc` matches no row); otherwise
it returns 200 with exactly the matching rows, where matching is literal
string equality on `location`. -/
theorem C3_search_spec (table : List Cafe) (loc : Option String) :
    (get_cafe_at_location table loc =
        errorResponse 404 "Not Found" notFoundLocMsg ↔
      table.filter (locMatch loc) = []) ∧
    (table.filter (locMatch loc) ≠ [] →
      get_cafe_at_location table loc =
        ⟨200, Body.json (Json.obj [("cafes",
          Json.arr ((table.filter (locMatch loc)).map Cafe.to_dict))])⟩) ∧
    table.filter (locMatch none) = [] ∧
    (∀ (l : String) (c : Cafe),
      c ∈ table.filter (locMatch (some l)) ↔ c ∈ table ∧ c.location = l) := by
  have hnone : table.filter (locMatch none) = [] := by simp [locMatch]
  have hmem : ∀ (l : String) (c : Cafe),
      c ∈ table.filter (locMatch (some l)) ↔ c ∈ table ∧ c.location = l := by
    intro l c
    simp [locMatch, List.mem_filter]
  by_cases he : table.filter (locMatch loc) = []
  · refine ⟨?_, fun hne => absurd he hne, hnone, hmem⟩
    simp [get_cafe_at_location, he]
  · have hie : (table.filter (locMatch loc)).isEmpty = false := by
      simpa [List.isEmpty_iff] using he
    refine ⟨⟨fun h => ?_, fun h => absurd h he⟩, fun _ => ?_, hnone, hmem⟩
    · simp [get_cafe_at_location, hie, errorResponse] at h
    · simp [get_cafe_at_location, hie]

/-- Witness for C3: one matching row yields the 200 list, and a location with
no row yields the 404 JSON. -/
theorem C3_witness :
    get_cafe_at_location [testCafe] (some "Paris") =
      ⟨200, Body.json (Json.obj [("cafes",
        Json.arr (([testCafe].filter (locMatch (some "Paris"))).map
          Cafe.to_dict))])⟩ ∧
    get_cafe_at_location [testCafe] (some "Lyon") =
      errorResponse 404 "Not Found" notFoundLocMsg :=
  ⟨(C3_search_spec [testCafe] (some "Paris")).2.1 (by decide),
   (C3_search_spec [testCafe] (some "Lyon")).1.2 (by decide)⟩

/-- After the UPDATE, the primary-key lookup finds the same row with only its
`coffee_price` replaced. -/
theorem db_get_map_price (table : List Cafe) (cafe_id : Nat) (x : Cafe)
    (hx : db_get table cafe_id = some x) (np : Option String) :
    db_get (table.map (fun c =>
        if c.id == cafe_id then { c with coffee_price := np } else c)) cafe_id
      = some { x with coffee_price := np } := by
  unfold db_get at hx ⊢
  rw [List.find?_map]
  have hcomp : ((fun c : Cafe => c.id == cafe_id) ∘ (fun c =>
      if c.id == cafe_id then { c with coffee_price := np } else c)) =
      fun c : Cafe => c.id == cafe_id := by
    funext c
    simp only [Function.comp_apply]
    by_cases h : c.id = cafe_id
    · simp [h]
    · simp [h]
  have hxid : (x.id == cafe_id) = true := by
    have h := List.find?_some hx
    simpa using h
  have hx2 : x.id = cafe_id := by simpa using hxid
  rw [hcomp, hx]
  simp [hx2]

/-- C5: PATCH /update-price with an existing id stores the raw `new_price`
string as the row's `coffee_price` (the lookup afterwards returns the row with
exactly that string and nothing else changed) and returns the success JSON;
with a non-existent id the table is unchanged and the status is 404. -/
theorem C5_update_price_spec (table : List Cafe) (cafe_id : Nat) (P : String) :
    (∀ x : Cafe, db_get table cafe_id = some x →
      patch_new_price table cafe_id (some P) =
        (table.map (fun c =>
           if c.id == cafe_id then { c with coffee_price := some P } else c),
         successResponse updatedMsg) ∧
      db_get (patch_new_price table cafe_id (some P)).1 cafe_id =
        some { x with coffee_price := some P }) ∧
    (db_get table cafe_id = none →
      (patch_new_price table cafe_id (some P)).1 = table ∧
      (patch_new_price table cafe_id (some P)).2.status = 404) := by
  constructor
  · intro x hx
    refine ⟨by simp [patch_new_price, hx], ?_⟩
    simp only [patch_new_price, hx]
    exact db_get_map_price table cafe_id x hx (some P)
  · intro hn
    constructor <;> simp [patch_new_price, hn, frameworkNotFoundResponse]

/-- Witness for C5 at a concrete one-row table. -/
theorem C5_witness :
    patch_new_price [testCafe] 1 (some "9.99") =
      ([testCafe].map (fun c =>
         if c.id == 1 then { c with coffee_price := some "9.99" } else c),
       successResponse updatedMsg) ∧
    db_get (patch_new_price [testCafe] 1 (some "9.99")).1 1 =
      some { testCafe with coffee_price := some "9.99" } :=
  (C5_update_price_spec [testCafe] 1 "9.99").1 testCafe rfl

/-- C10: PATCH /update-price with an existing id but no `new_price` query
parameter stores NULL as the row's `coffee_price` (clearing any previous
price) and still returns the success JSON with status 200. -/
theorem C10_update_price_absent_param (table : List Cafe) (cafe_id : Nat)
    (x : Cafe) (hx : db_get table cafe_id = some x) :
    patch_new_price table cafe_id none =
      (table.map (fun c =>
         if c.id == cafe_id then { c with coffee_price := none } else c),
       successResponse updatedMsg) ∧
    db_get (patch_new_price table cafe_id none).1 cafe_id =
      some { x with coffee_price := none } := by
  refine ⟨by simp [patch_new_price, hx], ?_⟩
  simp only [patch_new_price, hx]
  exact db_get_map_price table cafe_id x hx none

/-- Witness for C10: the concrete row's stored price "2.50" is cleared. -/
theorem C10_witness :
    patch_new_price [testCafe] 1 none =
      ([testCafe].map (fun c =>
         if c.id == 1 then { c with coffee_price := none } else c),
       successResponse updatedMsg) ∧
    db_get (patch_new_price [testCafe] 1 none).1 1 =
      some { testCafe with coffee_price := none } :=
  C10_update_price_absent_param [testCafe] 1 testCafe rfl

/-- C6: GET /all returns status 200 with `{"cafes": [...]}` listing a
permutation of the table sorted by name in non-decreasing lexical order; the
empty table yields an empty list, not an error. -/
theorem C6_all_cafes_sorted (table : List Cafe) :
    get_all_cafes table =
      ⟨200, Body.json (Json.obj
        [("cafes", Json.arr ((order_by_name table).map Cafe.to_dict))])⟩ ∧
    (order_by_name table).Perm table ∧
    List.Sorted nameLe (order_by_name table) ∧
    get_all_cafes [] =
      ⟨200, Body.json (Json.obj [("cafes", Json.arr [])])⟩ := by
  exact ⟨rfl, List.perm_insertionSort nameLe table,
    List.sorted_insertionSort nameLe table, rfl⟩

/-- C9: GET /random on a non-empty table returns status 200 with
`{"cafe": r}` for some stored row r; on the empty table the selection step has
no result (`random.choice` raises) and no JSON response is produced. -/
theorem C9_random_spec (table : List Cafe) (choice : Nat) :
    (table ≠ [] → ∃ c ∈ table,
      get_random_cafe table choice =
        some ⟨200, Body.json (Json.obj [("cafe", c.to_dict)])⟩) ∧
    get_random_cafe [] choice = none := by
  refine ⟨fun hne => ?_, rfl⟩
  match table with
  | [] => exact absurd rfl hne
  | c :: cs =>
      refine ⟨(c :: cs).getD (choice % (c :: cs).length) c, ?_, rfl⟩
      have hlt : choice % (c :: cs).length < (c :: cs).length :=
        Nat.mod_lt _ (by simp)
      rw [List.getD_eq_getElem?_getD, List.getElem?_eq_getElem hlt]
      exact List.getElem_mem hlt

/-- Witness for C9 at a concrete one-row table. -/
theorem C9_witness :
    get_random_cafe [testCafe] 0 =
      some ⟨200, Body.json (Json.obj [("cafe", testCafe.to_dict)])⟩ := by
  obtain ⟨c, hc, he⟩ := (C9_random_spec [testCafe] 0).1 (by simp)
  rw [List.mem_singleton] at hc
  rw [hc] at he
  exact he

/-- Under the primary-key invariant, the rows matching an existing id form
exactly the singleton of that row. -/
theorem filter_id_singleton (cafe_id : Nat) :
    ∀ table : List Cafe, (table.map Cafe.id).Nodup →
    ∀ x : Cafe, x ∈ table → x.id = cafe_id →
    table.filter (fun c => c.id == cafe_id) = [x] := by
  intro table
  induction table with
  | nil => intro _ x hx; cases hx
  | cons y ys ih =>
    intro hnd x hx hid
    rw [List.map_cons, List.nodup_cons] at hnd
    obtain ⟨hy, hnd2⟩ := hnd
    rcases List.mem_cons.mp hx with heq | hmem
    · subst heq
      have hpx : (fun c : Cafe => c.id == cafe_id) x = true := by
        simpa using hid
      rw [List.filter_cons_of_pos (p := fun c : Cafe => c.id == cafe_id) hpx]
      have hys : ys.filter (fun c => c.id == cafe_id) = [] := by
        rw [List.filter_eq_nil_iff]
        intro c hc
        simp only [beq_iff_eq]
        intro hcid
        apply hy
        rw [hid, ← hcid]
        exact List.mem_map_of_mem Cafe.id hc
      rw [hys]
    · have hyid : y.id ≠ cafe_id := by
        intro h
        apply hy
        rw [h, ← hid]
        exact List.mem_map_of_mem Cafe.id hmem
      have hpy : ¬ ((fun c : Cafe => c.id == cafe_id) y = true) := by
        simpa using hyid
      rw [List.filter_cons_of_neg (p := fun c : Cafe => c.id == cafe_id) hpy]
      exact ih hnd2 x hmem hid

/-- C4: DELETE /report-closed with the correct api-key: when the id exists,
exactly that row is removed (everything else is kept and a subsequent lookup
of the id finds nothing) and the success JSON is returned; when the id does
not exist, the table is unchanged and the 404 response is the same not-found
response the update-price endpoint produces. -/
theorem C4_delete_correct_key (table : List Cafe) (cafe_id : Nat)
    (hnd : (table.map Cafe.id).Nodup) :
    (∀ x : Cafe, db_get table cafe_id = some x →
      delete_cafe table cafe_id (some secretApiKey) =
        (table.filter (fun c => !(c.id == cafe_id)),
         successResponse deletedMsg) ∧
      db_get (delete_cafe table cafe_id (some secretApiKey)).1 cafe_id =
        none ∧
      (delete_cafe table cafe_id (some secretApiKey)).1.length + 1 =
        table.length ∧
      (∀ c : Cafe, c ∈ (delete_cafe table cafe_id (some secretApiKey)).1 ↔
        c ∈ table ∧ c.id ≠ cafe_id)) ∧
    (db_get table cafe_id = none →
      delete_cafe table cafe_id (some secretApiKey) =
        (table, frameworkNotFoundResponse) ∧
      (delete_cafe table cafe_id (some secretApiKey)).2 =
        (patch_new_price table cafe_id none).2) := by
  constructor
  · intro x hx
    have heq : delete_cafe table cafe_id (some secretApiKey) =
        (table.filter (fun c => !(c.id == cafe_id)),
         successResponse deletedMsg) := by
      simp [delete_cafe, hx]
    have hxid : x.id = cafe_id := by
      have h := List.find?_some hx
      simpa using h
    have hxmem : x ∈ table := List.mem_of_find?_eq_some hx
    refine ⟨heq, ?_, ?_, ?_⟩
    · rw [heq]
      simp only [db_get, List.find?_eq_none]
      intro c hc
      have := (List.mem_filter.mp hc).2
      simpa using this
    · rw [heq]
      have hperm := (List.filter_append_perm
        (fun c : Cafe => c.id == cafe_id) table).length_eq
      rw [List.length_append] at hperm
      rw [filter_id_singleton cafe_id table hnd x hxmem hxid] at hperm
      simpa [Nat.add_comm] using hperm
    · intro c
      rw [heq]
      simp [List.mem_filter]
  · intro hn
    refine ⟨by simp [delete_cafe, hn], ?_⟩
    simp [delete_cafe, patch_new_price, hn]

/-- Witness for C4 at a concrete one-row table: deletion branch and, on the
emptied table, the not-found branch. -/
theorem C4_witness :
    (delete_cafe [testCafe] 1 (some secretApiKey) =
      ([testCafe].filter (fun c => !(c.id == 1)),
       successResponse deletedMsg) ∧
     db_get (delete_cafe [testCafe] 1 (some secretApiKey)).1 1 = none ∧
     (delete_cafe [testCafe] 1 (some secretApiKey)).1.length + 1 =
       [testCafe].length ∧
     (∀ c : Cafe, c ∈ (delete_cafe [testCafe] 1 (some secretApiKey)).1 ↔
       c ∈ [testCafe] ∧ c.id ≠ 1)) ∧
    (delete_cafe [] 1 (some secretApiKey) =
      ([], frameworkNotFoundResponse) ∧
     (delete_cafe [] 1 (some secretApiKey)).2 =
       (patch_new_price [] 1 none).2) :=
  ⟨(C4_delete_correct_key [testCafe] 1 (by decide)).1 testCafe rfl,
   (C4_delete_correct_key [] 1 (by decide)).2 rfl⟩

/-- `bool(form.get(k))` is `true` exactly when the field is present with a
non-empty value. -/
theorem pyTruthy_eq_true_iff (o : Option String) :
    pyTruthy o = true ↔ ∃ s, o = some s ∧ s ≠ "" := by
  cases o with
  | none => simp [pyTruthy]
  | some s =>
    by_cases hs : s = ""
    · subst hs
      constructor
      · intro h
        exact absurd h (by decide)
      · rintro ⟨t, ht, hne⟩
        injection ht with ht2
        exact absurd ht2.symm hne
    · have hne : ¬ (s.isEmpty = true) :=
        fun h => hs ((String.isEmpty_iff s).mp h)
      have hie : s.isEmpty = false := by
        cases hb : s.isEmpty
        · rfl
        · exact absurd hb hne
      constructor
      · intro _
        exact ⟨s, rfl, hs⟩
      · intro _
        simp [pyTruthy, hie]

/-- C7: POST /add computes each stored boolean by Python truthiness of the
corresponding form field: `true` iff the field is present with a non-empty
value (so the literal strings "false" and "0" give `true`, while an absent or
empty field gives `false`); on success the fixed success JSON is returned. -/
theorem C7_add_truthiness (table : List Cafe) (form : AddForm) (new_id : Nat)
    (nm mu iu lo st : String)
    (hn : form.name = some nm) (hm : form.map_url = some mu)
    (hi : form.img_url = some iu) (hl : form.loc = some lo)
    (hs : form.seats = some st)
    (hu : table.any (fun c => c.name == nm) = false) :
    post_new_cafe table form new_id =
      Except.ok (table ++ [builtCafe form new_id nm mu iu lo st],
        successResponse addedMsg) ∧
    ((builtCafe form new_id nm mu iu lo st).has_sockets = true ↔
      ∃ s, form.sockets = some s ∧ s ≠ "") ∧
    ((builtCafe form new_id nm mu iu lo st).has_toilet = true ↔
      ∃ s, form.toilet = some s ∧ s ≠ "") ∧
    ((builtCafe form new_id nm mu iu lo st).has_wifi = true ↔
      ∃ s, form.wifi = some s ∧ s ≠ "") ∧
    ((builtCafe form new_id nm mu iu lo st).can_take_calls = true ↔
      ∃ s, form.calls = some s ∧ s ≠ "") ∧
    pyTruthy (some "false") = true ∧ pyTruthy (some "0") = true ∧
    pyTruthy (some "") = false ∧ pyTruthy none = false := by
  refine ⟨by simp [post_new_cafe, hn, hm, hi, hl, hs, hu], ?_, ?_, ?_, ?_,
    by decide, by decide, by decide, by decide⟩
  · exact pyTruthy_eq_true_iff form.sockets
  · exact pyTruthy_eq_true_iff form.toilet
  · exact pyTruthy_eq_true_iff form.wifi
  · exact pyTruthy_eq_true_iff form.calls

/-- Witness for C7 on a concrete form whose `sockets` field is the literal
string "false", `toilet` is "0", `wifi` is empty and `calls` is absent. -/
theorem C7_witness :
    post_new_cafe [] testForm 1 =
      Except.ok ([] ++ [builtCafe testForm 1 "Joe of Springfield" "http://x"
          "http://y" "Springfield" "10"],
        successResponse addedMsg) ∧
    ((builtCafe testForm 1 "Joe of Springfield" "http://x" "http://y"
        "Springfield" "10").has_sockets = true ↔
      ∃ s, testForm.sockets = some s ∧ s ≠ "") ∧
    ((builtCafe testForm 1 "Joe of Springfield" "http://x" "http://y"
        "Springfield" "10").has_toilet = true ↔
      ∃ s, testForm.toilet = some s ∧ s ≠ "") ∧
    ((builtCafe testForm 1 "Joe of Springfield" "http://x" "http://y"
        "Springfield" "10").has_wifi = true ↔
      ∃ s, testForm.wifi = some s ∧ s ≠ "") ∧
    ((builtCafe testForm 1 "Joe of Springfield" "http://x" "http://y"
        "Springfield" "10").can_take_calls = true ↔
      ∃ s, testForm.calls = some s ∧ s ≠ "") ∧
    pyTruthy (some "false") = true ∧ pyTruthy (some "0") = true ∧
    pyTruthy (some "") = false ∧ pyTruthy none = false :=
  C7_add_truthiness [] testForm 1 "Joe of Springfield" "http://x" "http://y"
    "Springfield" "10" rfl rfl rfl rfl rfl rfl

/-- C8: a row successfully added via POST /add appears in the response of
GET /all and of GET /search at its location, and its serialization there
carries exactly the field values the form supplied (`name`, `map_url`,
`img_url`, `location`, `seats`, `coffee_price`, the four truthiness booleans),
differing only in the generated id. -/
theorem C8_round_trip (table : List Cafe) (form : AddForm) (new_id : Nat)
    (nm mu iu lo st : String)
    (hn : form.name = some nm) (hm : form.map_url = some mu)
    (hi : form.img_url = some iu) (hl : form.loc = some lo)
    (hs : form.seats = some st)
    (hu : table.any (fun c => c.name == nm) = false) :
    post_new_cafe table form new_id =
      Except.ok (table ++ [builtCafe form new_id nm mu iu lo st],
        successResponse addedMsg) ∧
    (builtCafe form new_id nm mu iu lo st).to_dict ∈
      ((order_by_name (table ++ [builtCafe form new_id nm mu iu lo st])).map
        Cafe.to_dict) ∧
    get_cafe_at_location (table ++ [builtCafe form new_id nm mu iu lo st])
        (some lo) =
      ⟨200, Body.json (Json.obj [("cafes", Json.arr
        (((table ++ [builtCafe form new_id nm mu iu lo st]).filter
            (locMatch (some lo))).map Cafe.to_dict))])⟩ ∧
    (builtCafe form new_id nm mu iu lo st).to_dict ∈
      (((table ++ [builtCafe form new_id nm mu iu lo st]).filter
          (locMatch (some lo))).map Cafe.to_dict) ∧
    (builtCafe form new_id nm mu iu lo st).to_dict =
      Json.obj [("id", Json.num new_id), ("name", Json.str nm),
        ("map_url", Json.str mu), ("img_url", Json.str iu),
        ("location", Json.str lo), ("seats", Json.str st),
        ("has_toilet", Json.bool (pyTruthy form.toilet)),
        ("has_wifi", Json.bool (pyTruthy form.wifi)),
        ("has_sockets", Json.bool (pyTruthy form.sockets)),
        ("can_take_calls", Json.bool (pyTruthy form.calls)),
        ("coffee_price", optStrJson form.coffee_price)] := by
  have hbmem : builtCafe form new_id nm mu iu lo st ∈
      table ++ [builtCafe form new_id nm mu iu lo st] := by simp
  have hfmem : builtCafe form new_id nm mu iu lo st ∈
      (table ++ [builtCafe form new_id nm mu iu lo st]).filter
        (locMatch (some lo)) := by
    refine List.mem_filter.mpr ⟨hbmem, ?_⟩
    simp [locMatch, builtCafe]
  have hie : ((table ++ [builtCafe form new_id nm mu iu lo st]).filter
      (locMatch (some lo))).isEmpty = false := by
    have hne := List.ne_nil_of_mem hfmem
    cases hb : ((table ++ [builtCafe form new_id nm mu iu lo st]).filter
        (locMatch (some lo))).isEmpty
    · rfl
    · exact absurd (List.isEmpty_iff.mp (by rw [hb])) hne
  refine ⟨by simp [post_new_cafe, hn, hm, hi, hl, hs, hu], ?_, ?_, ?_, rfl⟩
  · apply List.mem_map_of_mem Cafe.to_dict
    exact ((List.perm_insertionSort nameLe _).mem_iff).mpr hbmem
  · simp only [get_cafe_at_location]
    rw [hie]
    simp
  · exact List.mem_map_of_mem Cafe.to_dict hfmem

/-- Witness for C8 on the concrete form added to the empty table. -/
theorem C8_witness :
    post_new_cafe [] testForm 1 =
      Except.ok ([] ++ [builtCafe testForm 1 "Joe of Springfield" "http://x"
          "http://y" "Springfield" "10"],
        successResponse addedMsg) ∧
    (builtCafe testForm 1 "Joe of Springfield" "http://x" "http://y"
        "Springfield" "10").to_dict ∈
      ((order_by_name ([] ++ [builtCafe testForm 1 "Joe of Springfield"
          "http://x" "http://y" "Springfield" "10"])).map Cafe.to_dict) ∧
    get_cafe_at_location ([] ++ [builtCafe testForm 1 "Joe of Springfield"
        "http://x" "http://y" "Springfield" "10"]) (some "Springfield") =
      ⟨200, Body.json (Json.obj [("cafes", Json.arr
        ((([] ++ [builtCafe testForm 1 "Joe of Springfield" "http://x"
            "http://y" "Springfield" "10"]).filter
            (locMatch (some "Springfield"))).map Cafe.to_dict))])⟩ ∧
    (builtCafe testForm 1 "Joe of Springfield" "http://x" "http://y"
        "Springfield" "10").to_dict ∈
      ((([] ++ [builtCafe testForm 1 "Joe of Springfield" "http://x"
          "http://y" "Springfield" "10"]).filter
          (locMatch (some "Springfield"))).map Cafe.to_dict) ∧
    (builtCafe testForm 1 "Joe of Springfield" "http://x" "http://y"
        "Springfield" "10").to_dict =
      Json.obj [("id", Json.num 1), ("name", Json.str "Joe of Springfield"),
        ("map_url", Json.str "http://x"), ("img_url", Json.str "http://y"),
        ("location", Json.str "Springfield"), ("seats", Json.str "10"),
        ("has_toilet", Json.bool (pyTruthy testForm.toilet)),
        ("has_wifi", Json.bool (pyTruthy testForm.wifi)),
        ("has_sockets", Json.bool (pyTruthy testForm.sockets)),
        ("can_take_calls", Json.bool (pyTruthy testForm.calls)),
        ("coffee_price", optStrJson testForm.coffee_price)] :=
  C8_round_trip [] testForm 1 "Joe of Springfield" "http://x" "http://y"
    "Springfield" "10" rfl rfl rfl rfl rfl rfl

end APICoffee
